import Mathlib

/-!
Verification of the two executable cells of
`Skills/GPUs/Part0-Introduction.ipynb`.

The notebook contains two code cells:

* cell 5 (availability check): prints a banner, the host name from
  `platform.node()`, then — if `cuda.is_available()` — one line per device
  of `cuda.list_devices()` with its `id` and `name.decode()`, otherwise a
  fixed informational message;

* cell 7 (capability check): `cuda.select_device(0)`, then compares
  `my_instance.compute_capability[0] >= 2 and
  my_instance.compute_capability[1] >= 1` (Python `and` short-circuits, and
  each operand re-reads the `compute_capability` attribute) and prints a
  sufficiency message (which embeds `my_instance.name.decode()`) or a fixed
  insufficiency message.

The external library is modelled as an environment record whose fields give
the (possibly failing) result of each library call; each cell is a function
from the environment to a trace of events (printed lines and library calls)
together with the uncaught exception, if any.
-/

namespace GPUIntro

/-- An exception raised by an external library call, carried as an abstract
message and propagated unchanged (the notebook has no try/except). -/
structure Exn where
  msg : String
deriving DecidableEq, Repr

/-- The library calls the two cells perform, recorded in the trace. -/
inductive Call where
  | node
  | is_available
  | list_devices
  | dev_id
  | dev_name
  | select_device (n : Nat)
  | compute_capability
  | inst_name
deriving DecidableEq, Repr

/-- The lines the two cells can print, carrying exactly the data the
corresponding Python `print` interpolates. -/
inductive Line where
  | bar
  | runningOn (node : String)
  | deviceLine (id : Nat) (name : String)
  | noCuda
  | sufficient (name : String)
  | notSufficient
deriving DecidableEq, Repr

/-- Python `print(a, b, ...)` joins the arguments with a single space. -/
def pr (args : List String) : String := String.intercalate (" ") args

/-- The banner the notebook prints: a row of 56 equals signs. -/
def barText : String := String.mk (List.replicate 56 ('='))

/-- The text each line renders to, as `print` would emit it. -/
def Line.render : Line → String
  | .bar => barText
  | .runningOn n => pr [("This notebook is running on "), n]
  | .deviceLine i nm => pr [("Device ID : "), toString i, (" : "), nm]
  | .noCuda => ("There doesn\x27t appear to be a CUDA capable device in this system")
  | .sufficient nm => pr [("The selected device ("), nm, (") has a sufficient compute capability")]
  | .notSufficient => ("The selected device does not have a sufficient compute capability")

/-- An element of `cuda.list_devices()`: each attribute access may raise.
`name_decode` is the result of `device.name.decode()` (the `name` attribute
access composed with the byte-string decode). -/
structure Device where
  id : Except Exn Nat
  name_decode : Except Exn String

/-- The handle returned by `cuda.select_device(0)`. `compute_capability` is
the `(major, minor)` tuple the attribute yields; `name_decode` is
`my_instance.name.decode()`. -/
structure MyInstance where
  compute_capability : Except Exn (Nat × Nat)
  name_decode : Except Exn String

/-- The responses of the external interfaces: the `cuda` module of numba. -/
structure Cuda where
  is_available : Except Exn Bool
  list_devices : Except Exn (List Device)
  select_device : Nat → Except Exn MyInstance

/-- One event of an execution: a printed line or a library call. -/
inductive Event where
  | out (l : Line)
  | call (c : Call)
deriving DecidableEq, Repr

/-- The result of running a cell: the trace of events in execution order,
and the exception that escaped the cell, if any. -/
structure Run where
  events : List Event
  exn : Option Exn

/-- The lines a run printed, in order. -/
def Run.outputs (r : Run) : List Line :=
  r.events.filterMap (fun e => match e with | .out l => some l | .call _ => none)

/-- The library calls a run performed, in order. -/
def Run.calls (r : Run) : List Call :=
  r.events.filterMap (fun e => match e with | .out _ => none | .call c => some c)

/-- The body of cell 5's `for device in cuda.list_devices():` loop:
`print("Device ID : ", device.id, " : ", device.name.decode())` for each
device in order; an attribute access that raises aborts the loop. -/
def printDevices : List Device → Run
  | [] => ⟨[], none⟩
  | d :: ds =>
    match d.id with
    | .error e => ⟨[.call .dev_id], some e⟩
    | .ok i =>
      match d.name_decode with
      | .error e => ⟨[.call .dev_id, .call .dev_name], some e⟩
      | .ok nm =>
        let rest := printDevices ds
        ⟨.call .dev_id :: .call .dev_name :: .out (.deviceLine i nm) :: rest.events, rest.exn⟩

/-- Cell 5, the availability check. `platform_node` is the response of
`platform.node()`. The first banner is printed before `platform.node()` is
evaluated (it is an argument of the second `print`). -/
def runCell5 (platform_node : Except Exn String) (cuda : Cuda) : Run :=
  match platform_node with
  | .error e => ⟨[.out .bar, .call .node], some e⟩
  | .ok nd =>
    match cuda.is_available with
    | .error e =>
      ⟨[.out .bar, .call .node, .out (.runningOn nd), .out .bar, .call .is_available], some e⟩
    | .ok b =>
      let pre : List Event :=
        [.out .bar, .call .node, .out (.runningOn nd), .out .bar, .call .is_available]
      if b then
        match cuda.list_devices with
        | .error e => ⟨pre ++ [.call .list_devices], some e⟩
        | .ok devs =>
          let r := printDevices devs
          ⟨pre ++ .call .list_devices :: r.events, r.exn⟩
      else
        ⟨pre ++ [.out .noCuda], none⟩

/-- Cell 7, the capability check. `cuda.select_device(0)` is performed
unconditionally; the condition
`my_instance.compute_capability[0] >= 2 and my_instance.compute_capability[1] >= 1`
reads the `compute_capability` attribute once for the first operand and,
because Python `and` short-circuits, a second time only when the first
comparison succeeds. The sufficiency branch additionally evaluates
`my_instance.name.decode()` as a `print` argument. -/
def runCell7 (cuda : Cuda) : Run :=
  match cuda.select_device 0 with
  | .error e => ⟨[.call (.select_device 0)], some e⟩
  | .ok my_instance =>
    match my_instance.compute_capability with
    | .error e => ⟨[.call (.select_device 0), .call .compute_capability], some e⟩
    | .ok cc =>
      if 2 ≤ cc.1 then
        if 1 ≤ cc.2 then
          match my_instance.name_decode with
          | .error e =>
            ⟨[.call (.select_device 0), .call .compute_capability,
              .call .compute_capability, .call .inst_name], some e⟩
          | .ok nm =>
            ⟨[.call (.select_device 0), .call .compute_capability,
              .call .compute_capability, .call .inst_name, .out (.sufficient nm)], none⟩
        else
          ⟨[.call (.select_device 0), .call .compute_capability,
            .call .compute_capability, .out .notSufficient], none⟩
      else
        ⟨[.call (.select_device 0), .call .compute_capability, .out .notSufficient], none⟩

/-- A top-to-bottom notebook execution: cell 5, then — unless cell 5 raised —
cell 7, with the traces concatenated. -/
def runNotebook (platform_node : Except Exn String) (cuda : Cuda) : Run :=
  let r5 := runCell5 platform_node cuda
  match r5.exn with
  | some e => ⟨r5.events, some e⟩
  | none =>
    let r7 := runCell7 cuda
    ⟨r5.events ++ r7.events, r7.exn⟩

/-- A device descriptor all of whose attribute accesses succeed. -/
def mkDevice (p : Nat × String) : Device := ⟨.ok p.1, .ok p.2⟩

/-- An environment in which every library call succeeds, with the given
availability flag, device list, capability tuple and device name. -/
def sampleCuda (avail : Bool) (ds : List (Nat × String)) (cc : Nat × Nat) (nm : String) : Cuda :=
  ⟨.ok avail, .ok (ds.map mkDevice), fun _ => .ok ⟨.ok cc, .ok nm⟩⟩

/-- Every line printed by the device-enumeration loop is a device line. -/
theorem printDevices_outputs_mem (devs : List Device) (l : Line)
    (h : l ∈ (printDevices devs).outputs) : ∃ i nm, l = Line.deviceLine i nm := by
  induction devs with
  | nil => simp [printDevices, Run.outputs] at h
  | cons d ds ih =>
    cases hid : d.id with
    | error e => simp [printDevices, hid, Run.outputs] at h
    | ok i =>
      cases hnm : d.name_decode with
      | error e => simp [printDevices, hid, hnm, Run.outputs] at h
      | ok nm =>
        simp only [printDevices, hid, hnm, Run.outputs, List.filterMap_cons] at h
        simp only [Run.outputs] at ih
        simp at h
        rcases h with h | h
        · exact ⟨i, nm, h⟩
        · exact ih (by simpa using h)

/-- Every library call the device-enumeration loop performs is an attribute
access on a device handle. -/
theorem printDevices_calls_mem (devs : List Device) (c : Call)
    (h : c ∈ (printDevices devs).calls) : c = .dev_id ∨ c = .dev_name := by
  induction devs with
  | nil => simp [printDevices, Run.calls] at h
  | cons d ds ih =>
    cases hid : d.id with
    | error e =>
      simp [printDevices, hid, Run.calls] at h
      exact Or.inl h
    | ok i =>
      cases hnm : d.name_decode with
      | error e =>
        simp [printDevices, hid, hnm, Run.calls] at h
        exact h.imp id id
      | ok nm =>
        simp only [printDevices, hid, hnm, Run.calls, List.filterMap_cons] at h
        simp only [Run.calls] at ih
        simp at h
        rcases h with h | h | h
        · exact Or.inl h
        · exact Or.inr h
        · exact ih (by simpa using h)

/-- Enumerating devices whose attribute accesses all succeed prints exactly
one device line per device, in order, and raises nothing. -/
theorem printDevices_map_outputs (specs : List (Nat × String)) :
    (printDevices (specs.map mkDevice)).outputs
        = specs.map (fun p => Line.deviceLine p.1 p.2)
    ∧ (printDevices (specs.map mkDevice)).exn = none := by
  induction specs with
  | nil => simp [printDevices, Run.outputs]
  | cons p ps ih =>
    simp only [List.map_cons, printDevices, mkDevice, Run.outputs, List.filterMap_cons]
    simp only [Run.outputs] at ih
    simp [ih.1, ih.2]

/-- C1: in the compute-capability check, the sufficiency message is printed
if and only if both components of the selected device's capability tuple
meet their thresholds component-wise (major ≥ 2 and minor ≥ 1); otherwise
the insufficiency message is printed. -/
theorem capability_check_iff (cuda : Cuda) (inst : MyInstance) (maj mnr : Nat) (nm : String)
    (hs : cuda.select_device 0 = .ok inst)
    (hc : inst.compute_capability = .ok (maj, mnr))
    (hn : inst.name_decode = .ok nm) :
    ((Line.sufficient nm) ∈ (runCell7 cuda).outputs ↔ (2 ≤ maj ∧ 1 ≤ mnr))
    ∧ (¬(2 ≤ maj ∧ 1 ≤ mnr) → (runCell7 cuda).outputs = [Line.notSufficient]) := by
  simp only [runCell7, hs, hc]
  by_cases h1 : 2 ≤ maj
  · by_cases h2 : 1 ≤ mnr
    · rw [hn]
      simp [h1, h2, Run.outputs]
    · simp [h1, h2, Run.outputs]
  · simp [h1, Run.outputs]

/-- Witness for C1 at a concrete environment with capability (2, 1). -/
theorem capability_check_iff_witness :
    ((Line.sufficient ("GeForce GT 710")) ∈
        (runCell7 (sampleCuda true [] (2, 1) ("GeForce GT 710"))).outputs
      ↔ (2 ≤ 2 ∧ 1 ≤ 1))
    ∧ (¬(2 ≤ 2 ∧ 1 ≤ 1) →
        (runCell7 (sampleCuda true [] (2, 1) ("GeForce GT 710"))).outputs
          = [Line.notSufficient]) :=
  capability_check_iff _ _ 2 1 _ rfl rfl rfl

/-- C2: the sufficiency test is component-wise, not a lexicographic version
comparison: whenever the capability tuple has minor component 0 the check
prints the insufficiency message, however large the major component is. -/
theorem minor_zero_insufficient (cuda : Cuda) (inst : MyInstance) (maj : Nat)
    (hs : cuda.select_device 0 = .ok inst)
    (hc : inst.compute_capability = .ok (maj, 0)) :
    (runCell7 cuda).outputs = [Line.notSufficient] := by
  simp only [runCell7, hs, hc]
  by_cases h1 : 2 ≤ maj
  · simp [h1, Run.outputs]
  · simp [h1, Run.outputs]

/-- Witness for C2: a device of capability (3, 0), whose version exceeds 2.1
lexicographically, is still reported as not sufficient. -/
theorem minor_zero_insufficient_witness :
    (runCell7 (sampleCuda true [] (3, 0) ("GeForce GT 710"))).outputs = [Line.notSufficient] :=
  minor_zero_insufficient _ _ 3 rfl rfl

/-- C3: the per-device enumeration output is produced when and only when
`cuda.is_available()` reports true; when it reports false, the cell prints
the banner lines followed by the single fixed informational message, and
`cuda.list_devices()` is never called. -/
theorem availability_branches (pn : Except Exn String) (nd : String) (cuda : Cuda)
    (hp : pn = .ok nd) :
    (cuda.is_available = .ok false →
      (runCell5 pn cuda).outputs = [.bar, .runningOn nd, .bar, .noCuda]
      ∧ Call.list_devices ∉ (runCell5 pn cuda).calls)
    ∧ (∀ devs, cuda.is_available = .ok true → cuda.list_devices = .ok devs →
      (runCell5 pn cuda).outputs
          = [.bar, .runningOn nd, .bar] ++ (printDevices devs).outputs
      ∧ Line.noCuda ∉ (runCell5 pn cuda).outputs) := by
  subst hp
  constructor
  · intro ha
    simp [runCell5, ha, Run.outputs, Run.calls]
  · intro devs ha hl
    have houts : (runCell5 (.ok nd) cuda).outputs
        = [.bar, .runningOn nd, .bar] ++ (printDevices devs).outputs := by
      simp [runCell5, ha, hl, Run.outputs]
    refine ⟨houts, ?_⟩
    rw [houts]
    intro hmem
    simp at hmem
    obtain ⟨i, nm, h⟩ := printDevices_outputs_mem devs _ hmem
    exact Line.noConfusion h

/-- Witness for C3 at two concrete environments, one without and one with a
CUDA device. -/
theorem availability_branches_witness :
    ((runCell5 (.ok ("ridcully")) (sampleCuda false [] (0, 0) (""))).outputs
        = [.bar, .runningOn ("ridcully"), .bar, .noCuda]
      ∧ Call.list_devices ∉
          (runCell5 (.ok ("ridcully")) (sampleCuda false [] (0, 0) (""))).calls)
    ∧ ((runCell5 (.ok ("ridcully"))
          (sampleCuda true [(0, ("GeForce GT 710"))] (2, 1) ("GeForce GT 710"))).outputs
        = [.bar, .runningOn ("ridcully"), .bar]
            ++ (printDevices [mkDevice (0, ("GeForce GT 710"))]).outputs
      ∧ Line.noCuda ∉
          (runCell5 (.ok ("ridcully"))
            (sampleCuda true [(0, ("GeForce GT 710"))] (2, 1) ("GeForce GT 710"))).outputs) :=
  ⟨(availability_branches _ ("ridcully") _ rfl).1 rfl,
   (availability_branches _ ("ridcully") _ rfl).2 [mkDevice (0, ("GeForce GT 710"))] rfl rfl⟩

/-- C4: when the detection call reports true, the cell prints, after the
banner lines, exactly one line per device returned by `cuda.list_devices()`,
in the order the library returns them, carrying that device's identifier and
decoded display name. -/
theorem enumeration_lines (pn : Except Exn String) (nd : String) (cuda : Cuda)
    (specs : List (Nat × String))
    (hp : pn = .ok nd) (ha : cuda.is_available = .ok true)
    (hl : cuda.list_devices = .ok (specs.map mkDevice)) :
    (runCell5 pn cuda).outputs
      = [.bar, .runningOn nd, .bar]
          ++ specs.map (fun p => Line.deviceLine p.1 p.2) := by
  subst hp
  have h := (printDevices_map_outputs specs).1
  simp [runCell5, ha, hl, Run.outputs]
  simpa [Run.outputs] using h

/-- Witness for C4 at a concrete two-device environment. -/
theorem enumeration_lines_witness :
    (runCell5 (.ok ("ridcully"))
        ⟨.ok true, .ok ([(0, ("GeForce GT 710")), (1, ("Tesla K40"))].map mkDevice),
         fun _ => .ok ⟨.ok (2, 1), .ok ("GeForce GT 710")⟩⟩).outputs
      = [.bar, .runningOn ("ridcully"), .bar]
          ++ [(0, ("GeForce GT 710")), (1, ("Tesla K40"))].map
              (fun p => Line.deviceLine p.1 p.2) :=
  enumeration_lines _ ("ridcully") _ [(0, ("GeForce GT 710")), (1, ("Tesla K40"))] rfl rfl rfl

/-- An all-success environment whose device 0 is named GeForce GT 710. -/
def envNameA : Cuda := sampleCuda true [] (2, 1) ("GeForce GT 710")

/-- An all-success environment identical to `envNameA` except that device 0
is named Tesla K40; the threshold comparison result is the same. -/
def envNameB : Cuda := sampleCuda true [] (2, 1) ("Tesla K40")

/-- C5 counterexample: the two environments give the same threshold
comparison result (both capability (2, 1), both sufficient), yet the
capability check prints different text, because the sufficiency message
embeds the selected device's decoded name: the message printed on success is
not a fixed, input-independent constant. -/
theorem capability_message_not_constant :
    (runCell7 envNameA).outputs.map Line.render
        ≠ (runCell7 envNameB).outputs.map Line.render
    ∧ (runCell7 envNameA).outputs = [Line.sufficient ("GeForce GT 710")]
    ∧ (runCell7 envNameB).outputs = [Line.sufficient ("Tesla K40")] :=
  ⟨by decide, rfl, rfl⟩

/-- C5 (amended): the capability check prints exactly one message, either
the fixed insufficiency message or — exactly when both threshold comparisons
succeed — a sufficiency message embedding the selected device's decoded
name; the choice between the two depends only on the threshold comparison. -/
theorem capability_prints_one_message (cuda : Cuda) (inst : MyInstance)
    (maj mnr : Nat) (nm : String)
    (hs : cuda.select_device 0 = .ok inst)
    (hc : inst.compute_capability = .ok (maj, mnr))
    (hn : inst.name_decode = .ok nm) :
    (runCell7 cuda).outputs.length = 1
    ∧ ((runCell7 cuda).outputs = [Line.notSufficient]
        ∨ (runCell7 cuda).outputs = [Line.sufficient nm])
    ∧ ((runCell7 cuda).outputs = [Line.sufficient nm] ↔ (2 ≤ maj ∧ 1 ≤ mnr)) := by
  simp only [runCell7, hs, hc]
  by_cases h1 : 2 ≤ maj
  · by_cases h2 : 1 ≤ mnr
    · rw [hn]
      simp [h1, h2, Run.outputs]
    · simp [h1, h2, Run.outputs]
  · simp [h1, Run.outputs]

/-- Witness for the amended C5 at a concrete sufficient environment. -/
theorem capability_prints_one_message_witness :
    (runCell7 envNameA).outputs.length = 1
    ∧ ((runCell7 envNameA).outputs = [Line.notSufficient]
        ∨ (runCell7 envNameA).outputs = [Line.sufficient ("GeForce GT 710")])
    ∧ ((runCell7 envNameA).outputs = [Line.sufficient ("GeForce GT 710")]
        ↔ (2 ≤ 2 ∧ 1 ≤ 1)) :=
  capability_prints_one_message envNameA _ 2 1 _ rfl rfl rfl

/-- C6: the capability check is not guarded by the availability check:
`cuda.select_device(0)` is called in every execution of cell 7, and when the
library raises from it the cell prints neither pass/fail message and the
exception propagates; in a whole-notebook run where availability reported
false, the informational message has been printed and the notebook still
ends in the `select_device` exception with no pass/fail message printed. -/
theorem select_device_unguarded (cuda : Cuda) (e : Exn) (nd : String) :
    (Call.select_device 0) ∈ (runCell7 cuda).calls
    ∧ (cuda.select_device 0 = .error e →
        (runCell7 cuda).outputs = [] ∧ (runCell7 cuda).exn = some e)
    ∧ (cuda.is_available = .ok false → cuda.select_device 0 = .error e →
        (runNotebook (.ok nd) cuda).exn = some e
        ∧ Line.noCuda ∈ (runNotebook (.ok nd) cuda).outputs
        ∧ Line.notSufficient ∉ (runNotebook (.ok nd) cuda).outputs
        ∧ ∀ nm, Line.sufficient nm ∉ (runNotebook (.ok nd) cuda).outputs) := by
  refine ⟨?_, ?_, ?_⟩
  · cases hs : cuda.select_device 0 with
    | error e' => simp [runCell7, hs, Run.calls]
    | ok inst =>
      cases hc : inst.compute_capability with
      | error e' => simp [runCell7, hs, hc, Run.calls]
      | ok cc =>
        by_cases h1 : 2 ≤ cc.1
        · by_cases h2 : 1 ≤ cc.2
          · cases hn : inst.name_decode with
            | error e' => simp [runCell7, hs, hc, hn, h1, h2, Run.calls]
            | ok nm => simp [runCell7, hs, hc, hn, h1, h2, Run.calls]
          · simp [runCell7, hs, hc, h1, h2, Run.calls]
        · simp [runCell7, hs, hc, h1, Run.calls]
  · intro hs
    simp [runCell7, hs, Run.outputs]
  · intro ha hs
    simp [runNotebook, runCell5, runCell7, ha, hs, Run.outputs]

/-- An environment with no CUDA device: availability reports false and
`cuda.select_device(0)` raises. -/
def noDeviceCuda : Cuda :=
  ⟨.ok false, .ok [], fun _ => .error ⟨("CudaSupportError")⟩⟩

/-- Witness for C6 at `noDeviceCuda`. -/
theorem select_device_unguarded_witness :
    (Call.select_device 0) ∈ (runCell7 noDeviceCuda).calls
    ∧ ((runCell7 noDeviceCuda).outputs = []
        ∧ (runCell7 noDeviceCuda).exn = some ⟨("CudaSupportError")⟩)
    ∧ ((runNotebook (.ok ("ridcully")) noDeviceCuda).exn = some ⟨("CudaSupportError")⟩
        ∧ Line.noCuda ∈ (runNotebook (.ok ("ridcully")) noDeviceCuda).outputs
        ∧ Line.notSufficient ∉ (runNotebook (.ok ("ridcully")) noDeviceCuda).outputs
        ∧ ∀ nm, Line.sufficient nm ∉ (runNotebook (.ok ("ridcully")) noDeviceCuda).outputs) :=
  ⟨(select_device_unguarded noDeviceCuda ⟨("CudaSupportError")⟩ ("ridcully")).1,
   (select_device_unguarded noDeviceCuda ⟨("CudaSupportError")⟩ ("ridcully")).2.1 rfl,
   (select_device_unguarded noDeviceCuda ⟨("CudaSupportError")⟩ ("ridcully")).2.2 rfl rfl⟩

/-- C7: neither cell catches or classifies any exception: whichever library
call raises first — `platform.node`, `cuda.is_available`,
`cuda.list_devices`, an attribute access on a device handle,
`cuda.select_device`, the `compute_capability` attribute, or the selected
device's name decode — its exception escapes the cell unchanged and the cell
produces no further output past the lines already printed. -/
theorem exceptions_propagate (pn : Except Exn String) (nd : String) (cuda : Cuda)
    (e : Exn) (d : Device) (rest : List Device) (i : Nat) (inst : MyInstance)
    (cc : Nat × Nat) :
    (pn = .error e →
      (runCell5 pn cuda).outputs = [.bar] ∧ (runCell5 pn cuda).exn = some e)
    ∧ (pn = .ok nd → cuda.is_available = .error e →
      (runCell5 pn cuda).outputs = [.bar, .runningOn nd, .bar]
      ∧ (runCell5 pn cuda).exn = some e)
    ∧ (pn = .ok nd → cuda.is_available = .ok true → cuda.list_devices = .error e →
      (runCell5 pn cuda).outputs = [.bar, .runningOn nd, .bar]
      ∧ (runCell5 pn cuda).exn = some e)
    ∧ (pn = .ok nd → cuda.is_available = .ok true → cuda.list_devices = .ok (d :: rest) →
      d.id = .error e →
      (runCell5 pn cuda).outputs = [.bar, .runningOn nd, .bar]
      ∧ (runCell5 pn cuda).exn = some e)
    ∧ (pn = .ok nd → cuda.is_available = .ok true → cuda.list_devices = .ok (d :: rest) →
      d.id = .ok i → d.name_decode = .error e →
      (runCell5 pn cuda).outputs = [.bar, .runningOn nd, .bar]
      ∧ (runCell5 pn cuda).exn = some e)
    ∧ (cuda.select_device 0 = .error e →
      (runCell7 cuda).outputs = [] ∧ (runCell7 cuda).exn = some e)
    ∧ (cuda.select_device 0 = .ok inst → inst.compute_capability = .error e →
      (runCell7 cuda).outputs = [] ∧ (runCell7 cuda).exn = some e)
    ∧ (cuda.select_device 0 = .ok inst → inst.compute_capability = .ok cc →
      2 ≤ cc.1 → 1 ≤ cc.2 → inst.name_decode = .error e →
      (runCell7 cuda).outputs = [] ∧ (runCell7 cuda).exn = some e) := by
  refine ⟨?_, ?_, ?_, ?_, ?_, ?_, ?_, ?_⟩
  · intro hp
    subst hp
    simp [runCell5, Run.outputs]
  · intro hp ha
    subst hp
    simp [runCell5, ha, Run.outputs]
  · intro hp ha hl
    subst hp
    simp [runCell5, ha, hl, Run.outputs]
  · intro hp ha hl hid
    subst hp
    simp [runCell5, ha, hl, printDevices, hid, Run.outputs]
  · intro hp ha hl hid hnm
    subst hp
    simp [runCell5, ha, hl, printDevices, hid, hnm, Run.outputs]
  · intro hs
    simp [runCell7, hs, Run.outputs]
  · intro hs hc
    simp [runCell7, hs, hc, Run.outputs]
  · intro hs hc h1 h2 hn
    simp [runCell7, hs, hc, h1, h2, hn, Run.outputs]

/-- The exception used by the C7 witness environments. -/
def eBoom : Exn := ⟨("boom")⟩

/-- A working instance for environments where the capability check result is
irrelevant. -/
def okInstance : MyInstance := ⟨.ok (0, 0), .ok ("")⟩

/-- Environment whose `cuda.is_available` raises. -/
def cudaAvailErr : Cuda := ⟨.error eBoom, .ok [], fun _ => .ok okInstance⟩

/-- Environment whose `cuda.list_devices` raises. -/
def cudaListErr : Cuda := ⟨.ok true, .error eBoom, fun _ => .ok okInstance⟩

/-- A device handle whose `id` attribute access raises. -/
def devIdErr : Device := ⟨.error eBoom, .ok ("")⟩

/-- Environment with one device whose `id` attribute access raises. -/
def cudaIdErr : Cuda := ⟨.ok true, .ok [devIdErr], fun _ => .ok okInstance⟩

/-- A device handle whose `name.decode()` raises. -/
def devNameErr : Device := ⟨.ok 0, .error eBoom⟩

/-- Environment with one device whose `name.decode()` raises. -/
def cudaNameErr : Cuda := ⟨.ok true, .ok [devNameErr], fun _ => .ok okInstance⟩

/-- Environment whose `cuda.select_device` raises. -/
def cudaSelErr : Cuda := ⟨.ok true, .ok [], fun _ => .error eBoom⟩

/-- Environment whose selected instance's `compute_capability` raises. -/
def cudaCapErr : Cuda := ⟨.ok true, .ok [], fun _ => .ok ⟨.error eBoom, .ok ("")⟩⟩

/-- Environment whose selected instance passes the thresholds but whose
`name.decode()` raises. -/
def cudaInstNameErr : Cuda := ⟨.ok true, .ok [], fun _ => .ok ⟨.ok (2, 1), .error eBoom⟩⟩

/-- Witness for C7: each failure point exercised at a concrete environment. -/
theorem exceptions_propagate_witness :
    ((runCell5 (.error eBoom) cudaAvailErr).outputs = [.bar]
      ∧ (runCell5 (.error eBoom) cudaAvailErr).exn = some eBoom)
    ∧ ((runCell5 (.ok ("ridcully")) cudaAvailErr).outputs = [.bar, .runningOn ("ridcully"), .bar]
      ∧ (runCell5 (.ok ("ridcully")) cudaAvailErr).exn = some eBoom)
    ∧ ((runCell5 (.ok ("ridcully")) cudaListErr).outputs = [.bar, .runningOn ("ridcully"), .bar]
      ∧ (runCell5 (.ok ("ridcully")) cudaListErr).exn = some eBoom)
    ∧ ((runCell5 (.ok ("ridcully")) cudaIdErr).outputs = [.bar, .runningOn ("ridcully"), .bar]
      ∧ (runCell5 (.ok ("ridcully")) cudaIdErr).exn = some eBoom)
    ∧ ((runCell5 (.ok ("ridcully")) cudaNameErr).outputs = [.bar, .runningOn ("ridcully"), .bar]
      ∧ (runCell5 (.ok ("ridcully")) cudaNameErr).exn = some eBoom)
    ∧ ((runCell7 cudaSelErr).outputs = [] ∧ (runCell7 cudaSelErr).exn = some eBoom)
    ∧ ((runCell7 cudaCapErr).outputs = [] ∧ (runCell7 cudaCapErr).exn = some eBoom)
    ∧ ((runCell7 cudaInstNameErr).outputs = []
      ∧ (runCell7 cudaInstNameErr).exn = some eBoom) :=
  ⟨(exceptions_propagate (.error eBoom) ("ridcully") cudaAvailErr eBoom devIdErr [] 0
      okInstance (0, 0)).1 rfl,
   (exceptions_propagate (.ok ("ridcully")) ("ridcully") cudaAvailErr eBoom devIdErr [] 0
      okInstance (0, 0)).2.1 rfl rfl,
   (exceptions_propagate (.ok ("ridcully")) ("ridcully") cudaListErr eBoom devIdErr [] 0
      okInstance (0, 0)).2.2.1 rfl rfl rfl,
   (exceptions_propagate (.ok ("ridcully")) ("ridcully") cudaIdErr eBoom devIdErr [] 0
      okInstance (0, 0)).2.2.2.1 rfl rfl rfl rfl,
   (exceptions_propagate (.ok ("ridcully")) ("ridcully") cudaNameErr eBoom devNameErr [] 0
      okInstance (0, 0)).2.2.2.2.1 rfl rfl rfl rfl rfl,
   (exceptions_propagate (.ok ("ridcully")) ("ridcully") cudaSelErr eBoom devIdErr [] 0
      okInstance (0, 0)).2.2.2.2.2.1 rfl,
   (exceptions_propagate (.ok ("ridcully")) ("ridcully") cudaCapErr eBoom devIdErr [] 0
      ⟨.error eBoom, .ok ("")⟩ (0, 0)).2.2.2.2.2.2.1 rfl rfl,
   (exceptions_propagate (.ok ("ridcully")) ("ridcully") cudaInstNameErr eBoom devIdErr [] 0
      ⟨.ok (2, 1), .error eBoom⟩ (2, 1)).2.2.2.2.2.2.2 rfl rfl (by decide) (by decide) rfl⟩

/-- C8 counterexample: at a concrete environment whose device has capability
(2, 1), a single execution of the capability check performs two
`compute_capability` attribute queries — one per operand of the `and` — not
one. -/
theorem compute_capability_queried_twice :
    (runCell7 (sampleCuda true [] (2, 1) ("GeForce GT 710"))).calls.count
        Call.compute_capability = 2
    ∧ (runCell7 (sampleCuda true [] (2, 1) ("GeForce GT 710"))).calls.count
        Call.compute_capability ≠ 1 :=
  ⟨by decide, by decide⟩

/-- C8 (amended): the capability check queries the `compute_capability`
attribute once or twice per execution — once for the major-component operand
and, because `and` short-circuits, a second time for the minor component
exactly when the major comparison succeeds — and compares the components
against literal constants. -/
theorem compute_capability_query_count (cuda : Cuda) (inst : MyInstance)
    (cc : Nat × Nat) (nm : String)
    (hs : cuda.select_device 0 = .ok inst)
    (hc : inst.compute_capability = .ok cc)
    (hn : inst.name_decode = .ok nm) :
    (runCell7 cuda).calls.count Call.compute_capability
      = if 2 ≤ cc.1 then 2 else 1 := by
  simp only [runCell7, hs, hc]
  by_cases h1 : 2 ≤ cc.1
  · by_cases h2 : 1 ≤ cc.2
    · rw [hn]
      simp [h1, h2, Run.calls, List.count_cons]
    · simp [h1, h2, Run.calls, List.count_cons]
  · simp [h1, Run.calls, List.count_cons]

/-- Witness for the amended C8 at capability (3, 0): the major comparison
succeeds, so the attribute is queried twice. -/
theorem compute_capability_query_count_witness :
    (runCell7 (sampleCuda true [] (3, 0) ("GeForce GT 710"))).calls.count
        Call.compute_capability = 2 := by
  simpa using
    compute_capability_query_count (sampleCuda true [] (3, 0) ("GeForce GT 710")) _
      (3, 0) _ rfl rfl rfl

/-- C9: no data flows from the availability check into the capability
check: two environments whose `cuda.select_device(0)` responses agree —
and with them the selected instance's `compute_capability` and decoded name
— produce identical capability-check runs, whatever `cuda.is_available` and
`cuda.list_devices` returned. -/
theorem capability_check_no_dataflow (c1 c2 : Cuda)
    (h : c1.select_device 0 = c2.select_device 0) :
    runCell7 c1 = runCell7 c2 := by
  unfold runCell7
  rw [h]

/-- The shared `select_device` response used by the C9 witness. -/
def selFun : Nat → Except Exn MyInstance :=
  fun _ => .ok ⟨.ok (2, 1), .ok ("GeForce GT 710")⟩

/-- Witness environment for C9 whose detection call reports true. -/
def envHi : Cuda := ⟨.ok true, .ok [mkDevice (0, ("GeForce GT 710"))], selFun⟩

/-- Witness environment for C9 whose detection call reports false and which
lists no devices. -/
def envLo : Cuda := ⟨.ok false, .ok [], selFun⟩

/-- Witness for C9: the two environments differ in availability and device
list but share the `select_device` response, and the capability check runs
identically. -/
theorem capability_check_no_dataflow_witness :
    runCell7 envHi = runCell7 envLo :=
  capability_check_no_dataflow envHi envLo rfl

/-- The device-enumeration loop performs no availability or device-selection
calls. -/
theorem printDevices_count (devs : List Device) :
    (printDevices devs).calls.count Call.is_available = 0
    ∧ (printDevices devs).calls.count (Call.select_device 0) = 0 := by
  constructor <;>
  · rw [List.count_eq_zero]
    intro hmem
    rcases printDevices_calls_mem devs _ hmem with h | h <;> exact Call.noConfusion h

/-- Every run of the capability check performs no availability call, exactly
one `select_device` call, and prints at most one line. -/
theorem runCell7_shape (cuda : Cuda) :
    (runCell7 cuda).calls.count Call.is_available = 0
    ∧ (runCell7 cuda).calls.count (Call.select_device 0) = 1
    ∧ (runCell7 cuda).outputs.length ≤ 1 := by
  cases hs : cuda.select_device 0 with
  | error e => simp [runCell7, hs, Run.calls, Run.outputs]
  | ok inst =>
    cases hc : inst.compute_capability with
    | error e => simp [runCell7, hs, hc, Run.calls, Run.outputs]
    | ok cc =>
      by_cases h1 : 2 ≤ cc.1
      · by_cases h2 : 1 ≤ cc.2
        · cases hn : inst.name_decode with
          | error e => simp [runCell7, hs, hc, hn, h1, h2, Run.calls, Run.outputs]
          | ok nm => simp [runCell7, hs, hc, hn, h1, h2, Run.calls, Run.outputs]
        · simp [runCell7, hs, hc, h1, h2, Run.calls, Run.outputs]
      · simp [runCell7, hs, hc, h1, Run.calls, Run.outputs]

/-- C10: execution is one sequential pass: when cell 5 completes without an
exception, the notebook trace is cell 5's trace followed by cell 7's trace
(so the availability check's output precedes the capability check's output),
the detection call and the device selection each happen exactly once in the
whole run, cell 5's prints open in program-text order (banner, host line,
banner, then the branch output), and cell 7 prints at most one line. -/
theorem sequential_execution (pn : Except Exn String) (nd : String) (cuda : Cuda)
    (b : Bool)
    (hp : pn = .ok nd) (ha : cuda.is_available = .ok b)
    (h5 : (runCell5 pn cuda).exn = none) :
    (runNotebook pn cuda).events
        = (runCell5 pn cuda).events ++ (runCell7 cuda).events
    ∧ (runNotebook pn cuda).calls.count Call.is_available = 1
    ∧ (runNotebook pn cuda).calls.count (Call.select_device 0) = 1
    ∧ (∃ rest, (runCell5 pn cuda).outputs = .bar :: .runningOn nd :: .bar :: rest)
    ∧ (runCell7 cuda).outputs.length ≤ 1 := by
  subst hp
  have hev : (runNotebook (.ok nd) cuda).events
      = (runCell5 (.ok nd) cuda).events ++ (runCell7 cuda).events := by
    simp [runNotebook, h5]
  have hcallsnb : (runNotebook (.ok nd) cuda).calls
      = (runCell5 (.ok nd) cuda).calls ++ (runCell7 cuda).calls := by
    simp [Run.calls, hev]
  have hc5 : (runCell5 (.ok nd) cuda).calls.count Call.is_available = 1
      ∧ (runCell5 (.ok nd) cuda).calls.count (Call.select_device 0) = 0 := by
    cases b with
    | false =>
      have hcl : (runCell5 (.ok nd) cuda).calls = [Call.node, Call.is_available] := by
        simp [runCell5, ha, Run.calls]
      rw [hcl]
      exact ⟨by decide, by decide⟩
    | true =>
      cases hl : cuda.list_devices with
      | error e =>
        have hcl : (runCell5 (.ok nd) cuda).calls
            = [Call.node, Call.is_available, Call.list_devices] := by
          simp [runCell5, ha, hl, Run.calls]
        rw [hcl]
        exact ⟨by decide, by decide⟩
      | ok devs =>
        have hcl : (runCell5 (.ok nd) cuda).calls
            = [Call.node, Call.is_available, Call.list_devices]
                ++ (printDevices devs).calls := by
          simp [runCell5, ha, hl, Run.calls]
        rw [hcl]
        constructor
        · rw [List.count_append, (printDevices_count devs).1]
          decide
        · rw [List.count_append, (printDevices_count devs).2]
          decide
  refine ⟨hev, ?_, ?_, ?_, (runCell7_shape cuda).2.2⟩
  · rw [hcallsnb, List.count_append, hc5.1, (runCell7_shape cuda).1]
  · rw [hcallsnb, List.count_append, hc5.2, (runCell7_shape cuda).2.1]
  · cases b with
    | false =>
      refine ⟨[Line.noCuda], ?_⟩
      simp [runCell5, ha, Run.outputs]
    | true =>
      cases hl : cuda.list_devices with
      | error e =>
        refine ⟨[], ?_⟩
        simp [runCell5, ha, hl, Run.outputs]
      | ok devs =>
        refine ⟨(printDevices devs).outputs, ?_⟩
        simp [runCell5, ha, hl, Run.outputs]

/-- Witness for C10 at a concrete working environment. -/
theorem sequential_execution_witness :
    (runNotebook (.ok ("ridcully")) envHi).events
        = (runCell5 (.ok ("ridcully")) envHi).events ++ (runCell7 envHi).events
    ∧ (runNotebook (.ok ("ridcully")) envHi).calls.count Call.is_available = 1
    ∧ (runNotebook (.ok ("ridcully")) envHi).calls.count (Call.select_device 0) = 1
    ∧ (∃ rest, (runCell5 (.ok ("ridcully")) envHi).outputs
        = .bar :: .runningOn ("ridcully") :: .bar :: rest)
    ∧ (runCell7 envHi).outputs.length ≤ 1 :=
  sequential_execution (.ok ("ridcully")) ("ridcully") envHi true rfl rfl rfl

end GPUIntro
